import Mathlib

/-
Verification of the retrieval/selection loop of the metwp CLI
(src/fetch.py and src/api/met.py), shallowly embedded in Lean.

The embedding mirrors the Python source:
- Python values that occur in the program (None, str, bool, int) become the
  inductive type PyVal; artwork records (JSON dictionaries) become
  association lists of PyVal pairs, looked up with Python equality.
- check_if_exists is translated verbatim, including the expression
  obj.get("id" == obj_id), which looks up the boolean value of the
  comparison as a dictionary key.
- the while-loops of main become fuel-based recursion: the inner loop over
  attempts recurses on the remaining retry budget, the outer loop over
  slots recurses on the remaining target count.
- raising IndexError (out-of-bounds list indexing, random.choice on an
  empty sequence), TypeError (len() of a non-string) and the exit(1) in
  get_artwork's exception handler all abort the run; RunErr records which
  one happened, and exitCode maps an aborted run to process status 1.
- random.choice is modelled by an oracle picks : slot -> attempt -> Nat;
  the chosen element is the oracle value reduced modulo the pool size, so
  every oracle models one possible sequence of random draws and every
  draw corresponds to some oracle.
- the detail fetch is an oracle fetch : Int -> Except Unit PyDict; an
  error value models a transport failure inside get_artwork, which the
  source handles by printing and calling exit(1).
- download_artwork and the console printing perform I/O with no influence
  on the loop state, so they are not represented.
-/

namespace Metwp

/-- Python values occurring in this program: None, strings, booleans and
integers. -/
inductive PyVal where
  | vnone : PyVal
  | vstr : String → PyVal
  | vbool : Bool → PyVal
  | vint : Int → PyVal
deriving DecidableEq

/-- Python equality on embedded values: booleans compare numerically with
integers (True == 1), strings compare only with strings, None compares
only with None. -/
def pyEq : PyVal → PyVal → Bool
  | .vnone, .vnone => true
  | .vstr s, .vstr t => s == t
  | .vbool a, .vbool b => a == b
  | .vbool a, .vint n => (if a then (1 : Int) else 0) == n
  | .vint n, .vbool a => n == (if a then (1 : Int) else 0)
  | .vint m, .vint n => m == n
  | _, _ => false

/-- Python truthiness of an embedded value. -/
def truthy : PyVal → Bool
  | .vnone => false
  | .vstr s => !(s == "")
  | .vbool b => b
  | .vint n => !(n == 0)

/-- A Python dictionary, as an association list of key/value pairs. -/
abbrev PyDict : Type := List (PyVal × PyVal)

/-- dict.get(key): the value stored at the first key equal, by Python
equality, to the requested key, or None when no key matches. -/
def dictGet (d : PyDict) (k : PyVal) : PyVal :=
  match d.find? (fun kv => pyEq kv.1 k) with
  | some kv => kv.2
  | none => .vnone

/-- NUM_RETRIES from fetch.py. -/
def NUM_RETRIES : Nat := 3

/-- FUZZY_SEARCH_THRESHOLD from fetch.py. -/
def FUZZY_SEARCH_THRESHOLD : Nat := 20

/-- check_if_exists from fetch.py, translated verbatim: for each object it
tests the truthiness of obj.get("id" == obj_id), i.e. it evaluates the
boolean expression "id" == obj_id and looks THAT up as a dictionary key,
returning True on the first truthy lookup and False otherwise. -/
def check_if_exists (obj_id : PyVal) (objects : List PyDict) : Bool :=
  objects.any (fun obj => truthy (dictGet obj (.vbool (pyEq (.vstr "id") obj_id))))

/-- Predicate used to describe well-formed API records: the key is a Python
string. -/
def isStringKey : PyVal → Bool
  | .vstr _ => true
  | _ => false

/-- Outcome of the validity/dedup checks of main on one fetched artwork:
skip for a missing or empty image, skip as duplicate, accept, or a
TypeError when len() is applied to a non-string primaryImage value. -/
inductive FilterResult where
  | noImage : FilterResult
  | duplicate : FilterResult
  | accept : FilterResult
  | typeErr : FilterResult
deriving DecidableEq

/-- The validity/dedup decision of main in fetch.py: image_url is None or
len(image_url) == 0 rejects as "no image"; otherwise
check_if_exists(artwork.get("objectID"), viewed) rejects as "duplicate";
otherwise accept. -/
def filterDecision (artwork : PyDict) (viewed : List PyDict) : FilterResult :=
  let image_url := dictGet artwork (.vstr "primaryImage")
  let artwork_id := dictGet artwork (.vstr "objectID")
  let has_already_been_downloaded := check_if_exists artwork_id viewed
  match image_url with
  | .vnone => FilterResult.noImage
  | .vstr s =>
      if s.length == 0 then FilterResult.noImage
      else if has_already_been_downloaded then FilterResult.duplicate
      else FilterResult.accept
  | _ => FilterResult.typeErr

/-- The filter as a state transformer: it computes the decision and passes
the viewed list through unchanged, exactly as the checks in main neither
append to nor remove from viewed. -/
def filterStep (artwork : PyDict) (viewed : List PyDict) :
    FilterResult × List PyDict :=
  (filterDecision artwork viewed, viewed)

/-- What happened on one attempt of the inner retry loop. -/
inductive Decision where
  | accepted : Decision
  | skipNoImage : Decision
  | skipDuplicate : Decision
deriving DecidableEq

/-- One attempt of the inner loop: which slot, which attempt index, which
object id was selected, and how the filter decided. -/
structure Event where
  slot : Nat
  attempt : Nat
  objectId : Int
  decision : Decision
deriving DecidableEq

/-- How a run aborts: an uncaught IndexError from list indexing or from
random.choice on an empty sequence, the exit(1) inside get_artwork's
exception handler on a transport failure, or an uncaught TypeError from
len() on a non-string. -/
inductive RunErr where
  | indexError : RunErr
  | fetchError : RunErr
  | typeError : RunErr
deriving DecidableEq

/-- The observable outcome of a run of main: the trace of attempts, the
final viewed list, how many outer-loop iterations ran to completion, and
whether (and how) the run aborted. -/
structure RunResult where
  events : List Event
  viewed : List PyDict
  slotsCompleted : Nat
  err : Option RunErr
deriving DecidableEq

/-- Candidate selection of main in fetch.py:
object_ids[attempt] if not args.random else
choice(object_ids[0:FUZZY_SEARCH_THRESHOLD]).
A none result models the IndexError raised by an out-of-bounds index or
by choice on an empty sequence; in random mode the oracle value pick is
reduced modulo the pool size, so the result is always inside the pool
when the pool is non-empty. -/
def selectCandidate (random : Bool) (objectIds : List Int) (attempt : Nat)
    (pick : Nat) : Option Int :=
  if random then
    let pool := objectIds.take FUZZY_SEARCH_THRESHOLD
    pool.get? (pick % pool.length)
  else
    objectIds.get? attempt

/-- The inner retry loop of main: while attempt < NUM_RETRIES, select a
candidate, fetch its record, run the filter; a skip increments the attempt
counter and continues, an accept appends the record to viewed and breaks.
The fuel argument is NUM_RETRIES minus the current attempt index. -/
def runAttempts (random : Bool) (objectIds : List Int)
    (fetch : Int → Except Unit PyDict) (picks : Nat → Nat) (slot : Nat) :
    Nat → Nat → List PyDict → List Event × List PyDict × Option RunErr
  | 0, _, viewed => ([], viewed, none)
  | fuel + 1, attempt, viewed =>
    match selectCandidate random objectIds attempt (picks attempt) with
    | none => ([], viewed, some RunErr.indexError)
    | some object_id =>
      match fetch object_id with
      | Except.error _ => ([], viewed, some RunErr.fetchError)
      | Except.ok artwork =>
        match (filterStep artwork viewed).1 with
        | FilterResult.typeErr => ([], viewed, some RunErr.typeError)
        | FilterResult.noImage =>
          let r := runAttempts random objectIds fetch picks slot fuel
            (attempt + 1) viewed
          (⟨slot, attempt, object_id, Decision.skipNoImage⟩ :: r.1, r.2.1, r.2.2)
        | FilterResult.duplicate =>
          let r := runAttempts random objectIds fetch picks slot fuel
            (attempt + 1) viewed
          (⟨slot, attempt, object_id, Decision.skipDuplicate⟩ :: r.1, r.2.1, r.2.2)
        | FilterResult.accept =>
          ([⟨slot, attempt, object_id, Decision.accepted⟩],
            viewed ++ [artwork], none)

/-- The outer slot loop of main: while count < total_count, run one slot's
retry loop; an abort inside a slot ends the whole run at once (the
process exits), otherwise move on to the next slot. The fuel argument is
total_count minus the current slot index. -/
def runSlots (random : Bool) (objectIds : List Int)
    (fetch : Int → Except Unit PyDict) (picks : Nat → Nat → Nat) :
    Nat → Nat → List PyDict → RunResult
  | 0, _, viewed => ⟨[], viewed, 0, none⟩
  | fuel + 1, slot, viewed =>
    let t := runAttempts random objectIds fetch (picks slot) slot
      NUM_RETRIES 0 viewed
    match t.2.2 with
    | some e => ⟨t.1, t.2.1, 0, some e⟩
    | none =>
      let r := runSlots random objectIds fetch picks fuel (slot + 1) t.2.1
      ⟨t.1 ++ r.events, r.viewed, r.slotsCompleted + 1, r.err⟩

/-- The selection loop of main in fetch.py, starting from an empty viewed
list: objectIds is the search result, total_count the requested number of
images, fetch the detail-fetch oracle and picks the random-choice
oracle. -/
def main (random : Bool) (objectIds : List Int) (total_count : Nat)
    (fetch : Int → Except Unit PyDict) (picks : Nat → Nat → Nat) : RunResult :=
  runSlots random objectIds fetch picks total_count 0 []

/-- Process exit status of a run: sys.exit(0) on normal completion, 1 when
the run aborted (exit(1) in get_artwork, or an uncaught exception). -/
def exitCode (r : RunResult) : Nat :=
  match r.err with
  | none => 0
  | some _ => 1

/-- Number of accepted attempts in a trace. -/
def countAccepted (evs : List Event) : Nat :=
  evs.countP (fun e => e.decision == Decision.accepted)

/-- Number of accepted attempts of one slot in a trace. -/
def slotAccepted (s : Nat) (evs : List Event) : Nat :=
  evs.countP (fun e => e.slot == s && e.decision == Decision.accepted)

/-- An artwork record with identifier i and a non-empty image URL, as the
API returns it (string keys). -/
def artOk (i : Int) : PyDict :=
  [(.vstr "objectID", .vint i), (.vstr "primaryImage", .vstr "http://img")]

/-- An artwork record with identifier i whose primaryImage is the empty
string. -/
def artNoImage (i : Int) : PyDict :=
  [(.vstr "objectID", .vint i), (.vstr "primaryImage", .vstr "")]

/-- Fetch oracle: every record has an image. -/
def fetchOk (i : Int) : Except Unit PyDict := Except.ok (artOk i)

/-- Fetch oracle: every record lacks an image. -/
def fetchNoImage (i : Int) : Except Unit PyDict := Except.ok (artNoImage i)

/-- Fetch oracle: a transport error on object id 2, images elsewhere. -/
def fetchFailTwo (i : Int) : Except Unit PyDict :=
  if i == 2 then Except.error () else Except.ok (artOk i)

/-- Random-choice oracle that always draws index 0. -/
def picksZero : Nat → Nat → Nat := fun _ _ => 0

/-- Random-choice oracle that always draws index 1. -/
def picksOne : Nat → Nat → Nat := fun _ _ => 1

/-- Random-choice oracle that draws the slot index. -/
def picksSlot : Nat → Nat → Nat := fun s _ => s

end Metwp

namespace Metwp

theorem selectCandidate_false_eq (objectIds : List Int) (attempt pick : Nat) :
    selectCandidate false objectIds attempt pick = objectIds.get? attempt := rfl

theorem selectCandidate_true_mem (objectIds : List Int) (attempt pick : Nat)
    (oid : Int) (h : selectCandidate true objectIds attempt pick = some oid) :
    oid ∈ objectIds.take FUZZY_SEARCH_THRESHOLD := by
  simp only [selectCandidate, if_pos] at h
  exact List.get?_mem h

theorem selectCandidate_true_isSome (objectIds : List Int) (attempt pick : Nat)
    (h : objectIds ≠ []) :
    ∃ oid, selectCandidate true objectIds attempt pick = some oid := by
  have hlen : 0 < (objectIds.take FUZZY_SEARCH_THRESHOLD).length := by
    rw [List.length_take]
    have h1 : 0 < objectIds.length := List.length_pos.mpr h
    have h2 : 0 < FUZZY_SEARCH_THRESHOLD := by norm_num [FUZZY_SEARCH_THRESHOLD]
    omega
  refine ⟨(objectIds.take FUZZY_SEARCH_THRESHOLD).get
    ⟨pick % (objectIds.take FUZZY_SEARCH_THRESHOLD).length, Nat.mod_lt pick hlen⟩, ?_⟩
  simp only [selectCandidate, if_pos]
  exact List.get?_eq_get (Nat.mod_lt pick hlen)

theorem runAttempts_len (random : Bool) (objectIds : List Int)
    (fetch : Int → Except Unit PyDict) (picks : Nat → Nat) (slot : Nat)
    (fuel : Nat) :
    ∀ attempt viewed,
      ((runAttempts random objectIds fetch picks slot fuel attempt viewed).2.1).length
        = viewed.length
          + countAccepted
              (runAttempts random objectIds fetch picks slot fuel attempt viewed).1 := by
  induction fuel with
  | zero =>
    intro attempt viewed
    simp [runAttempts, countAccepted]
  | succ n ih =>
    intro attempt viewed
    simp only [runAttempts]
    cases hsel : selectCandidate random objectIds attempt (picks attempt) with
    | none => simp [hsel, countAccepted]
    | some oid =>
      cases hf : fetch oid with
      | error u => simp [hsel, hf, countAccepted]
      | ok artwork =>
        cases hd : (filterStep artwork viewed).1 with
        | noImage =>
          have hih := ih (attempt + 1) viewed
          simp [hsel, hf, hd, countAccepted] at hih ⊢
          omega
        | duplicate =>
          have hih := ih (attempt + 1) viewed
          simp [hsel, hf, hd, countAccepted] at hih ⊢
          omega
        | accept => simp [hsel, hf, hd, countAccepted]
        | typeErr => simp [hsel, hf, hd, countAccepted]

theorem runAttempts_accept_le_one (random : Bool) (objectIds : List Int)
    (fetch : Int → Except Unit PyDict) (picks : Nat → Nat) (slot : Nat)
    (fuel : Nat) :
    ∀ attempt viewed,
      countAccepted
        (runAttempts random objectIds fetch picks slot fuel attempt viewed).1 ≤ 1 := by
  induction fuel with
  | zero =>
    intro attempt viewed
    simp [runAttempts, countAccepted]
  | succ n ih =>
    intro attempt viewed
    simp only [runAttempts]
    cases hsel : selectCandidate random objectIds attempt (picks attempt) with
    | none => simp [hsel, countAccepted]
    | some oid =>
      cases hf : fetch oid with
      | error u => simp [hsel, hf, countAccepted]
      | ok artwork =>
        cases hd : (filterStep artwork viewed).1 with
        | noImage =>
          have hih := ih (attempt + 1) viewed
          simp [hsel, hf, hd, countAccepted] at hih ⊢
          omega
        | duplicate =>
          have hih := ih (attempt + 1) viewed
          simp [hsel, hf, hd, countAccepted] at hih ⊢
          omega
        | accept => simp [hsel, hf, hd, countAccepted]
        | typeErr => simp [hsel, hf, hd, countAccepted]

theorem runAttempts_slot_eq (random : Bool) (objectIds : List Int)
    (fetch : Int → Except Unit PyDict) (picks : Nat → Nat) (slot : Nat)
    (fuel : Nat) :
    ∀ attempt viewed,
      ∀ ev ∈ (runAttempts random objectIds fetch picks slot fuel attempt viewed).1,
        ev.slot = slot := by
  induction fuel with
  | zero =>
    intro attempt viewed
    simp [runAttempts]
  | succ n ih =>
    intro attempt viewed
    simp only [runAttempts]
    cases hsel : selectCandidate random objectIds attempt (picks attempt) with
    | none => simp [hsel]
    | some oid =>
      cases hf : fetch oid with
      | error u => simp [hsel, hf]
      | ok artwork =>
        cases hd : (filterStep artwork viewed).1 with
        | noImage =>
          intro ev hev
          simp only [hsel, hf, hd] at hev
          rcases List.mem_cons.mp hev with h1 | h1
          · subst h1; rfl
          · exact ih (attempt + 1) viewed ev h1
        | duplicate =>
          intro ev hev
          simp only [hsel, hf, hd] at hev
          rcases List.mem_cons.mp hev with h1 | h1
          · subst h1; rfl
          · exact ih (attempt + 1) viewed ev h1
        | accept =>
          intro ev hev
          simp only [hsel, hf, hd] at hev
          rcases List.mem_cons.mp hev with h1 | h1
          · subst h1; rfl
          · simp at h1
        | typeErr => simp [hsel, hf, hd]

theorem runAttempts_nonrandom_index (objectIds : List Int)
    (fetch : Int → Except Unit PyDict) (picks : Nat → Nat) (slot : Nat)
    (fuel : Nat) :
    ∀ attempt viewed,
      ∀ ev ∈ (runAttempts false objectIds fetch picks slot fuel attempt viewed).1,
        objectIds.get? ev.attempt = some ev.objectId := by
  induction fuel with
  | zero =>
    intro attempt viewed
    simp [runAttempts]
  | succ n ih =>
    intro attempt viewed
    simp only [runAttempts]
    cases hsel : selectCandidate false objectIds attempt (picks attempt) with
    | none => simp [hsel]
    | some oid =>
      cases hf : fetch oid with
      | error u => simp [hsel, hf]
      | ok artwork =>
        cases hd : (filterStep artwork viewed).1 with
        | noImage =>
          intro ev hev
          simp only [hsel, hf, hd] at hev
          rcases List.mem_cons.mp hev with h1 | h1
          · subst h1
            rw [selectCandidate_false_eq] at hsel
            exact hsel
          · exact ih (attempt + 1) viewed ev h1
        | duplicate =>
          intro ev hev
          simp only [hsel, hf, hd] at hev
          rcases List.mem_cons.mp hev with h1 | h1
          · subst h1
            rw [selectCandidate_false_eq] at hsel
            exact hsel
          · exact ih (attempt + 1) viewed ev h1
        | accept =>
          intro ev hev
          simp only [hsel, hf, hd] at hev
          rcases List.mem_cons.mp hev with h1 | h1
          · subst h1
            rw [selectCandidate_false_eq] at hsel
            exact hsel
          · simp at h1
        | typeErr => simp [hsel, hf, hd]

theorem runAttempts_random_mem (objectIds : List Int)
    (fetch : Int → Except Unit PyDict) (picks : Nat → Nat) (slot : Nat)
    (fuel : Nat) :
    ∀ attempt viewed,
      ∀ ev ∈ (runAttempts true objectIds fetch picks slot fuel attempt viewed).1,
        ev.objectId ∈ objectIds.take FUZZY_SEARCH_THRESHOLD := by
  induction fuel with
  | zero =>
    intro attempt viewed
    simp [runAttempts]
  | succ n ih =>
    intro attempt viewed
    simp only [runAttempts]
    cases hsel : selectCandidate true objectIds attempt (picks attempt) with
    | none => simp [hsel]
    | some oid =>
      cases hf : fetch oid with
      | error u => simp [hsel, hf]
      | ok artwork =>
        cases hd : (filterStep artwork viewed).1 with
        | noImage =>
          intro ev hev
          simp only [hsel, hf, hd] at hev
          rcases List.mem_cons.mp hev with h1 | h1
          · subst h1
            exact selectCandidate_true_mem objectIds attempt (picks attempt) oid hsel
          · exact ih (attempt + 1) viewed ev h1
        | duplicate =>
          intro ev hev
          simp only [hsel, hf, hd] at hev
          rcases List.mem_cons.mp hev with h1 | h1
          · subst h1
            exact selectCandidate_true_mem objectIds attempt (picks attempt) oid hsel
          · exact ih (attempt + 1) viewed ev h1
        | accept =>
          intro ev hev
          simp only [hsel, hf, hd] at hev
          rcases List.mem_cons.mp hev with h1 | h1
          · subst h1
            exact selectCandidate_true_mem objectIds attempt (picks attempt) oid hsel
          · simp at h1
        | typeErr => simp [hsel, hf, hd]

theorem runAttempts_true_no_indexError (objectIds : List Int)
    (fetch : Int → Except Unit PyDict) (picks : Nat → Nat) (slot : Nat)
    (fuel : Nat) (hne : objectIds ≠ []) :
    ∀ attempt viewed,
      (runAttempts true objectIds fetch picks slot fuel attempt viewed).2.2
        ≠ some RunErr.indexError := by
  induction fuel with
  | zero =>
    intro attempt viewed
    simp [runAttempts]
  | succ n ih =>
    intro attempt viewed
    simp only [runAttempts]
    cases hsel : selectCandidate true objectIds attempt (picks attempt) with
    | none =>
      obtain ⟨oid, hoid⟩ := selectCandidate_true_isSome objectIds attempt (picks attempt) hne
      rw [hsel] at hoid
      exact absurd hoid (by simp)
    | some oid =>
      cases hf : fetch oid with
      | error u => simp [hsel, hf]
      | ok artwork =>
        cases hd : (filterStep artwork viewed).1 with
        | noImage =>
          simp only [hsel, hf, hd]
          exact ih (attempt + 1) viewed
        | duplicate =>
          simp only [hsel, hf, hd]
          exact ih (attempt + 1) viewed
        | accept => simp [hsel, hf, hd]
        | typeErr => simp [hsel, hf, hd]

theorem runSlots_len (random : Bool) (objectIds : List Int)
    (fetch : Int → Except Unit PyDict) (picks : Nat → Nat → Nat) (fuel : Nat) :
    ∀ slot viewed,
      ((runSlots random objectIds fetch picks fuel slot viewed).viewed).length
        = viewed.length
          + countAccepted (runSlots random objectIds fetch picks fuel slot viewed).events := by
  induction fuel with
  | zero =>
    intro slot viewed
    simp [runSlots, countAccepted]
  | succ n ih =>
    intro slot viewed
    simp only [runSlots]
    cases he : (runAttempts random objectIds fetch (picks slot) slot
        NUM_RETRIES 0 viewed).2.2 with
    | some e =>
      simp only [he]
      exact runAttempts_len random objectIds fetch (picks slot) slot NUM_RETRIES 0 viewed
    | none =>
      simp only [he]
      have h1 := runAttempts_len random objectIds fetch (picks slot) slot
        NUM_RETRIES 0 viewed
      have h2 := ih (slot + 1)
        ((runAttempts random objectIds fetch (picks slot) slot NUM_RETRIES 0 viewed).2.1)
      simp only [countAccepted, List.countP_append] at h1 h2 ⊢
      omega

theorem runSlots_countAccepted_le (random : Bool) (objectIds : List Int)
    (fetch : Int → Except Unit PyDict) (picks : Nat → Nat → Nat) (fuel : Nat) :
    ∀ slot viewed,
      countAccepted (runSlots random objectIds fetch picks fuel slot viewed).events
        ≤ fuel := by
  induction fuel with
  | zero =>
    intro slot viewed
    simp [runSlots, countAccepted]
  | succ n ih =>
    intro slot viewed
    simp only [runSlots]
    cases he : (runAttempts random objectIds fetch (picks slot) slot
        NUM_RETRIES 0 viewed).2.2 with
    | some e =>
      simp only [he]
      have h1 := runAttempts_accept_le_one random objectIds fetch (picks slot) slot
        NUM_RETRIES 0 viewed
      omega
    | none =>
      simp only [he]
      have h1 := runAttempts_accept_le_one random objectIds fetch (picks slot) slot
        NUM_RETRIES 0 viewed
      have h2 := ih (slot + 1)
        ((runAttempts random objectIds fetch (picks slot) slot NUM_RETRIES 0 viewed).2.1)
      simp only [countAccepted, List.countP_append] at h1 h2 ⊢
      omega

theorem runSlots_slots_le (random : Bool) (objectIds : List Int)
    (fetch : Int → Except Unit PyDict) (picks : Nat → Nat → Nat) (fuel : Nat) :
    ∀ slot viewed,
      (runSlots random objectIds fetch picks fuel slot viewed).slotsCompleted ≤ fuel := by
  induction fuel with
  | zero =>
    intro slot viewed
    simp [runSlots]
  | succ n ih =>
    intro slot viewed
    simp only [runSlots]
    cases he : (runAttempts random objectIds fetch (picks slot) slot
        NUM_RETRIES 0 viewed).2.2 with
    | some e => simp only [he]; omega
    | none =>
      simp only [he]
      have h2 := ih (slot + 1)
        ((runAttempts random objectIds fetch (picks slot) slot NUM_RETRIES 0 viewed).2.1)
      omega

theorem runSlots_slots_eq (random : Bool) (objectIds : List Int)
    (fetch : Int → Except Unit PyDict) (picks : Nat → Nat → Nat) (fuel : Nat) :
    ∀ slot viewed,
      (runSlots random objectIds fetch picks fuel slot viewed).err = none →
      (runSlots random objectIds fetch picks fuel slot viewed).slotsCompleted = fuel := by
  induction fuel with
  | zero =>
    intro slot viewed _
    simp [runSlots]
  | succ n ih =>
    intro slot viewed herr
    simp only [runSlots] at herr ⊢
    cases he : (runAttempts random objectIds fetch (picks slot) slot
        NUM_RETRIES 0 viewed).2.2 with
    | some e =>
      rw [he] at herr
      simp at herr
    | none =>
      rw [he] at herr
      simp only [he]
      have h2 := ih (slot + 1)
        ((runAttempts random objectIds fetch (picks slot) slot NUM_RETRIES 0 viewed).2.1)
        herr
      omega

theorem runSlots_err_slots_lt (random : Bool) (objectIds : List Int)
    (fetch : Int → Except Unit PyDict) (picks : Nat → Nat → Nat) (fuel : Nat) :
    ∀ slot viewed e,
      (runSlots random objectIds fetch picks fuel slot viewed).err = some e →
      (runSlots random objectIds fetch picks fuel slot viewed).slotsCompleted < fuel := by
  induction fuel with
  | zero =>
    intro slot viewed e herr
    simp [runSlots] at herr
  | succ n ih =>
    intro slot viewed e herr
    simp only [runSlots] at herr ⊢
    cases he : (runAttempts random objectIds fetch (picks slot) slot
        NUM_RETRIES 0 viewed).2.2 with
    | some e2 => simp only [he]; omega
    | none =>
      rw [he] at herr
      simp only [he]
      have h2 := ih (slot + 1)
        ((runAttempts random objectIds fetch (picks slot) slot NUM_RETRIES 0 viewed).2.1)
        e herr
      omega

theorem runSlots_slot_ge (random : Bool) (objectIds : List Int)
    (fetch : Int → Except Unit PyDict) (picks : Nat → Nat → Nat) (fuel : Nat) :
    ∀ slot viewed,
      ∀ ev ∈ (runSlots random objectIds fetch picks fuel slot viewed).events,
        slot ≤ ev.slot := by
  induction fuel with
  | zero =>
    intro slot viewed
    simp [runSlots]
  | succ n ih =>
    intro slot viewed
    simp only [runSlots]
    cases he : (runAttempts random objectIds fetch (picks slot) slot
        NUM_RETRIES 0 viewed).2.2 with
    | some e =>
      simp only [he]
      intro ev hev
      have := runAttempts_slot_eq random objectIds fetch (picks slot) slot
        NUM_RETRIES 0 viewed ev hev
      omega
    | none =>
      simp only [he]
      intro ev hev
      rcases List.mem_append.mp hev with h1 | h1
      · have := runAttempts_slot_eq random objectIds fetch (picks slot) slot
          NUM_RETRIES 0 viewed ev h1
        omega
      · have := ih (slot + 1)
          ((runAttempts random objectIds fetch (picks slot) slot NUM_RETRIES 0 viewed).2.1)
          ev h1
        omega

theorem runSlots_slotAccepted_le_one (random : Bool) (objectIds : List Int)
    (fetch : Int → Except Unit PyDict) (picks : Nat → Nat → Nat) (fuel : Nat) :
    ∀ slot viewed s,
      slotAccepted s (runSlots random objectIds fetch picks fuel slot viewed).events
        ≤ 1 := by
  induction fuel with
  | zero =>
    intro slot viewed s
    simp [runSlots, slotAccepted]
  | succ n ih =>
    intro slot viewed s
    simp only [runSlots]
    cases he : (runAttempts random objectIds fetch (picks slot) slot
        NUM_RETRIES 0 viewed).2.2 with
    | some e =>
      simp only [he]
      calc slotAccepted s (runAttempts random objectIds fetch (picks slot) slot
            NUM_RETRIES 0 viewed).1
          ≤ countAccepted (runAttempts random objectIds fetch (picks slot) slot
            NUM_RETRIES 0 viewed).1 := by
            apply List.countP_mono_left
            intro a _ ha
            simp only [Bool.and_eq_true] at ha
            exact ha.2
        _ ≤ 1 := runAttempts_accept_le_one random objectIds fetch (picks slot) slot
            NUM_RETRIES 0 viewed
    | none =>
      simp only [he]
      rcases Nat.lt_trichotomy s slot with hs | hs | hs
      · have hz1 : slotAccepted s (runAttempts random objectIds fetch (picks slot) slot
            NUM_RETRIES 0 viewed).1 = 0 := by
          apply List.countP_eq_zero.mpr
          intro a ha
          have := runAttempts_slot_eq random objectIds fetch (picks slot) slot
            NUM_RETRIES 0 viewed a ha
          simp only [Bool.and_eq_true, beq_iff_eq]
          intro hcon
          omega
        have hz2 : slotAccepted s (runSlots random objectIds fetch picks n (slot + 1)
            ((runAttempts random objectIds fetch (picks slot) slot
              NUM_RETRIES 0 viewed).2.1)).events = 0 := by
          apply List.countP_eq_zero.mpr
          intro a ha
          have := runSlots_slot_ge random objectIds fetch picks n (slot + 1)
            ((runAttempts random objectIds fetch (picks slot) slot
              NUM_RETRIES 0 viewed).2.1) a ha
          simp only [Bool.and_eq_true, beq_iff_eq]
          intro hcon
          omega
        simp only [slotAccepted, List.countP_append] at hz1 hz2 ⊢
        omega
      · have hz2 : slotAccepted s (runSlots random objectIds fetch picks n (slot + 1)
            ((runAttempts random objectIds fetch (picks slot) slot
              NUM_RETRIES 0 viewed).2.1)).events = 0 := by
          apply List.countP_eq_zero.mpr
          intro a ha
          have := runSlots_slot_ge random objectIds fetch picks n (slot + 1)
            ((runAttempts random objectIds fetch (picks slot) slot
              NUM_RETRIES 0 viewed).2.1) a ha
          simp only [Bool.and_eq_true, beq_iff_eq]
          intro hcon
          omega
        have hle : slotAccepted s (runAttempts random objectIds fetch (picks slot) slot
            NUM_RETRIES 0 viewed).1 ≤ 1 := by
          calc slotAccepted s (runAttempts random objectIds fetch (picks slot) slot
              NUM_RETRIES 0 viewed).1
              ≤ countAccepted (runAttempts random objectIds fetch (picks slot) slot
                NUM_RETRIES 0 viewed).1 := by
                apply List.countP_mono_left
                intro a _ ha
                simp only [Bool.and_eq_true] at ha
                exact ha.2
            _ ≤ 1 := runAttempts_accept_le_one random objectIds fetch (picks slot) slot
                NUM_RETRIES 0 viewed
        simp only [slotAccepted, List.countP_append] at hz2 hle ⊢
        omega
      · have hz1 : slotAccepted s (runAttempts random objectIds fetch (picks slot) slot
            NUM_RETRIES 0 viewed).1 = 0 := by
          apply List.countP_eq_zero.mpr
          intro a ha
          have := runAttempts_slot_eq random objectIds fetch (picks slot) slot
            NUM_RETRIES 0 viewed a ha
          simp only [Bool.and_eq_true, beq_iff_eq]
          intro hcon
          omega
        have h2 := ih (slot + 1)
          ((runAttempts random objectIds fetch (picks slot) slot NUM_RETRIES 0 viewed).2.1) s
        simp only [slotAccepted, List.countP_append] at hz1 h2 ⊢
        omega

theorem runSlots_nonrandom_index (objectIds : List Int)
    (fetch : Int → Except Unit PyDict) (picks : Nat → Nat → Nat) (fuel : Nat) :
    ∀ slot viewed,
      ∀ ev ∈ (runSlots false objectIds fetch picks fuel slot viewed).events,
        objectIds.get? ev.attempt = some ev.objectId := by
  induction fuel with
  | zero =>
    intro slot viewed
    simp [runSlots]
  | succ n ih =>
    intro slot viewed
    simp only [runSlots]
    cases he : (runAttempts false objectIds fetch (picks slot) slot
        NUM_RETRIES 0 viewed).2.2 with
    | some e =>
      simp only [he]
      intro ev hev
      exact runAttempts_nonrandom_index objectIds fetch (picks slot) slot
        NUM_RETRIES 0 viewed ev hev
    | none =>
      simp only [he]
      intro ev hev
      rcases List.mem_append.mp hev with h1 | h1
      · exact runAttempts_nonrandom_index objectIds fetch (picks slot) slot
          NUM_RETRIES 0 viewed ev h1
      · exact ih (slot + 1)
          ((runAttempts false objectIds fetch (picks slot) slot NUM_RETRIES 0 viewed).2.1)
          ev h1

theorem runSlots_random_mem (objectIds : List Int)
    (fetch : Int → Except Unit PyDict) (picks : Nat → Nat → Nat) (fuel : Nat) :
    ∀ slot viewed,
      ∀ ev ∈ (runSlots true objectIds fetch picks fuel slot viewed).events,
        ev.objectId ∈ objectIds.take FUZZY_SEARCH_THRESHOLD := by
  induction fuel with
  | zero =>
    intro slot viewed
    simp [runSlots]
  | succ n ih =>
    intro slot viewed
    simp only [runSlots]
    cases he : (runAttempts true objectIds fetch (picks slot) slot
        NUM_RETRIES 0 viewed).2.2 with
    | some e =>
      simp only [he]
      intro ev hev
      exact runAttempts_random_mem objectIds fetch (picks slot) slot
        NUM_RETRIES 0 viewed ev hev
    | none =>
      simp only [he]
      intro ev hev
      rcases List.mem_append.mp hev with h1 | h1
      · exact runAttempts_random_mem objectIds fetch (picks slot) slot
          NUM_RETRIES 0 viewed ev h1
      · exact ih (slot + 1)
          ((runAttempts true objectIds fetch (picks slot) slot NUM_RETRIES 0 viewed).2.1)
          ev h1

theorem runSlots_true_no_indexError (objectIds : List Int)
    (fetch : Int → Except Unit PyDict) (picks : Nat → Nat → Nat) (fuel : Nat)
    (hne : objectIds ≠ []) :
    ∀ slot viewed,
      (runSlots true objectIds fetch picks fuel slot viewed).err
        ≠ some RunErr.indexError := by
  induction fuel with
  | zero =>
    intro slot viewed
    simp [runSlots]
  | succ n ih =>
    intro slot viewed
    simp only [runSlots]
    cases he : (runAttempts true objectIds fetch (picks slot) slot
        NUM_RETRIES 0 viewed).2.2 with
    | some e =>
      simp only [he]
      have h1 := runAttempts_true_no_indexError objectIds fetch (picks slot) slot
        NUM_RETRIES hne 0 viewed
      rw [he] at h1
      simp only [ne_eq, Option.some.injEq]
      intro hcon
      exact h1 (by rw [hcon])
    | none =>
      simp only [he]
      exact ih (slot + 1)
        ((runAttempts true objectIds fetch (picks slot) slot NUM_RETRIES 0 viewed).2.1)

/-- C1: the spec claims the viewed list never contains two records with the
same identifier; the code violates this. In the non-random run with
count 2 over search result [1, 2, 3] where every record has an image,
slot 2 re-selects id 1, check_if_exists returns false (it looks up the
boolean "id" == obj_id as a dictionary key), and the final viewed list
holds two records with objectID 1. -/
theorem C1_duplicate_identifiers_in_viewed :
    (main false [1, 2, 3] 2 fetchOk picksZero).viewed.map
        (fun a => dictGet a (PyVal.vstr "objectID"))
      = [PyVal.vint 1, PyVal.vint 1] ∧
    check_if_exists (PyVal.vint 1) [artOk 1] = false := by
  decide

/-- C2: scenario D as specified fails on the code. With count 2, non-random
mode and search result [1, 2, 3, 4], slot 2's first attempt selects id 1
again, but the broken duplicate check accepts it: the run ends with
viewed = [artwork 1, artwork 1] and no duplicate-skip event, not the
specified [artwork 1, artwork 2]. -/
theorem C2_scenarioD_fails_on_code :
    (main false [1, 2, 3, 4] 2 fetchOk picksZero).viewed = [artOk 1, artOk 1] ∧
    (main false [1, 2, 3, 4] 2 fetchOk picksZero).events
      = [⟨0, 0, 1, Decision.accepted⟩, ⟨1, 0, 1, Decision.accepted⟩] ∧
    (main false [1, 2, 3, 4] 2 fetchOk picksZero).viewed ≠ [artOk 1, artOk 2] := by
  decide

/-- C3 counterexample: the claim that a search result shorter than the retry
budget never causes an out-of-bounds selection is false. In non-random
mode with search result [1, 2] (length 2 < NUM_RETRIES) and both records
lacking images, the third attempt indexes position 2 of a two-element
list and the run aborts with an IndexError (process exit 1). -/
theorem C3_short_list_index_error :
    List.length [(1 : Int), 2] < NUM_RETRIES ∧
    (main false [1, 2] 1 fetchNoImage picksZero).err = some RunErr.indexError ∧
    exitCode (main false [1, 2] 1 fetchNoImage picksZero) = 1 := by
  decide

/-- C3 amended: in random mode with a non-empty search result, candidate
selection never indexes out of bounds (the slice clamps the pool to the
first min(20, N) identifiers), so no run aborts with an IndexError; in
non-random mode, selection yields an identifier exactly when the attempt
index is below the list length. -/
theorem C3_amended_selection_bounds (objectIds : List Int) (total_count : Nat)
    (fetch : Int → Except Unit PyDict) (picks : Nat → Nat → Nat)
    (hne : objectIds ≠ []) :
    (main true objectIds total_count fetch picks).err ≠ some RunErr.indexError ∧
    ∀ attempt pick, attempt < objectIds.length →
      ∃ oid, selectCandidate false objectIds attempt pick = some oid := by
  constructor
  · exact runSlots_true_no_indexError objectIds fetch picks total_count hne 0 []
  · intro attempt pick hlt
    exact ⟨_, List.get?_eq_get hlt⟩

/-- Witness for C3 amended at a concrete input. -/
theorem C3_amended_witness :
    (main true [5] 1 fetchOk picksZero).err ≠ some RunErr.indexError :=
  (C3_amended_selection_bounds [5] 1 fetchOk picksZero (by decide)).1

/-- C4: in every non-random run, the candidate identifier selected on
attempt i of any slot (recorded in the trace) is the identifier at
index i of the search result. -/
theorem C4_nonrandom_attempt_selects_index (objectIds : List Int)
    (total_count : Nat) (fetch : Int → Except Unit PyDict)
    (picks : Nat → Nat → Nat) (ev : Event)
    (h : ev ∈ (main false objectIds total_count fetch picks).events) :
    objectIds.get? ev.attempt = some ev.objectId :=
  runSlots_nonrandom_index objectIds fetch picks total_count 0 [] ev h

/-- Witness for C4 at a concrete run. -/
theorem C4_witness :
    [(1 : Int), 2, 3].get? 0 = some 1 :=
  C4_nonrandom_attempt_selects_index [1, 2, 3] 1 fetchOk picksZero
    ⟨0, 0, 1, Decision.accepted⟩ (by decide)

/-- C5: in every random-mode run, every candidate identifier selected on
any attempt (recorded in the trace) lies within the first
min(20, N) entries of the search result, i.e. in
objectIds.take FUZZY_SEARCH_THRESHOLD. -/
theorem C5_random_candidate_in_window (objectIds : List Int)
    (total_count : Nat) (fetch : Int → Except Unit PyDict)
    (picks : Nat → Nat → Nat) (ev : Event)
    (h : ev ∈ (main true objectIds total_count fetch picks).events) :
    ev.objectId ∈ objectIds.take FUZZY_SEARCH_THRESHOLD :=
  runSlots_random_mem objectIds fetch picks total_count 0 [] ev h

/-- Witness for C5 at a concrete run. -/
theorem C5_witness :
    (6 : Int) ∈ [(5 : Int), 6].take FUZZY_SEARCH_THRESHOLD :=
  C5_random_candidate_in_window [5, 6] 1 fetchOk picksOne
    ⟨0, 0, 6, Decision.accepted⟩ (by decide)

/-- C6: in every run the viewed list never exceeds the target count, at
most total_count slots run, a run that completes without a fatal error
runs exactly total_count slots (no backfilling), and each slot accepts at
most one record. -/
theorem C6_slot_loop_bounds (random : Bool) (objectIds : List Int)
    (total_count : Nat) (fetch : Int → Except Unit PyDict)
    (picks : Nat → Nat → Nat) :
    (main random objectIds total_count fetch picks).viewed.length ≤ total_count ∧
    (main random objectIds total_count fetch picks).slotsCompleted ≤ total_count ∧
    ((main random objectIds total_count fetch picks).err = none →
      (main random objectIds total_count fetch picks).slotsCompleted = total_count) ∧
    ∀ s, slotAccepted s (main random objectIds total_count fetch picks).events ≤ 1 := by
  refine ⟨?_, ?_, ?_, ?_⟩
  · have h1 := runSlots_len random objectIds fetch picks total_count 0 []
    have h2 := runSlots_countAccepted_le random objectIds fetch picks total_count 0 []
    simp only [List.length_nil] at h1
    simp only [main]
    omega
  · exact runSlots_slots_le random objectIds fetch picks total_count 0 []
  · exact runSlots_slots_eq random objectIds fetch picks total_count 0 []
  · intro s
    exact runSlots_slotAccepted_le_one random objectIds fetch picks total_count 0 [] s

/-- Witness for C6 at a concrete run. -/
theorem C6_witness :
    (main false [1, 2, 3] 2 fetchOk picksZero).viewed.length ≤ 2 ∧
    (main false [1, 2, 3] 2 fetchOk picksZero).slotsCompleted = 2 ∧
    slotAccepted 0 (main false [1, 2, 3] 2 fetchOk picksZero).events ≤ 1 :=
  ⟨(C6_slot_loop_bounds false [1, 2, 3] 2 fetchOk picksZero).1,
   (C6_slot_loop_bounds false [1, 2, 3] 2 fetchOk picksZero).2.2.1 (by decide),
   (C6_slot_loop_bounds false [1, 2, 3] 2 fetchOk picksZero).2.2.2 0⟩

/-- C7: scenario C. Search result [1, 2, 3], non-random, count 1, all three
records lack images: the slot makes exactly three attempts (all skips for
a missing image), the budget is exhausted, viewed stays empty and the
process exits with code 0. -/
theorem C7_scenarioC_budget_exhausted :
    (main false [1, 2, 3] 1 fetchNoImage picksZero).events
      = [⟨0, 0, 1, Decision.skipNoImage⟩, ⟨0, 1, 2, Decision.skipNoImage⟩,
         ⟨0, 2, 3, Decision.skipNoImage⟩] ∧
    (main false [1, 2, 3] 1 fetchNoImage picksZero).viewed = [] ∧
    exitCode (main false [1, 2, 3] 1 fetchNoImage picksZero) = 0 := by
  decide

/-- C8: a transport error on a detail fetch is fatal: the run ends with
exit code 1, the viewed list holds exactly the records accepted before
the failing fetch (no rollback, no additions), and strictly fewer than
total_count slots completed, so no further slots were processed. -/
theorem C8_fetch_error_fatal (random : Bool) (objectIds : List Int)
    (total_count : Nat) (fetch : Int → Except Unit PyDict)
    (picks : Nat → Nat → Nat)
    (h : (main random objectIds total_count fetch picks).err
      = some RunErr.fetchError) :
    exitCode (main random objectIds total_count fetch picks) = 1 ∧
    (main random objectIds total_count fetch picks).viewed.length
      = countAccepted (main random objectIds total_count fetch picks).events ∧
    (main random objectIds total_count fetch picks).slotsCompleted < total_count := by
  refine ⟨?_, ?_, ?_⟩
  · simp [exitCode, h]
  · have h1 := runSlots_len random objectIds fetch picks total_count 0 []
    simpa [main] using h1
  · exact runSlots_err_slots_lt random objectIds fetch picks total_count 0 []
      RunErr.fetchError h

/-- Witness for C8: a run whose second slot hits a transport error after
the first slot accepted one record. -/
theorem C8_witness :
    exitCode (main true [1, 2] 2 fetchFailTwo picksSlot) = 1 ∧
    (main true [1, 2] 2 fetchFailTwo picksSlot).viewed.length
      = countAccepted (main true [1, 2] 2 fetchFailTwo picksSlot).events ∧
    (main true [1, 2] 2 fetchFailTwo picksSlot).slotsCompleted < 2 :=
  C8_fetch_error_fatal true [1, 2] 2 fetchFailTwo picksSlot (by decide)

/-- C9: the validity/dedup filter is idempotent: it leaves the viewed list
unchanged, so evaluating it a second time on the same record against the
resulting (identical) viewed list yields the same decision. -/
theorem C9_filter_idempotent (artwork : PyDict) (viewed : List PyDict) :
    (filterStep artwork viewed).2 = viewed ∧
    filterStep artwork ((filterStep artwork viewed).2)
      = filterStep artwork viewed :=
  ⟨rfl, rfl⟩

/-- C10: for every obj_id and every list of records whose keys are all
strings (as every record the API returns is), check_if_exists returns
false: the looked-up key is the boolean value of "id" == obj_id, which
never equals a string key, so the scan never finds a truthy value. -/
theorem C10_check_if_exists_always_false (obj_id : PyVal)
    (objects : List PyDict)
    (h : ∀ obj ∈ objects, ∀ kv ∈ obj, isStringKey kv.1 = true) :
    check_if_exists obj_id objects = false := by
  simp only [check_if_exists, List.any_eq_false]
  intro obj hobj
  have hfind : obj.find?
      (fun kv => pyEq kv.1 (PyVal.vbool (pyEq (PyVal.vstr "id") obj_id)))
      = none := by
    apply List.find?_eq_none.mpr
    intro kv hkv
    obtain ⟨k, v⟩ := kv
    have hk := h obj hobj ⟨k, v⟩ hkv
    cases k with
    | vstr s => simp [pyEq]
    | vnone => simp [isStringKey] at hk
    | vbool b => simp [isStringKey] at hk
    | vint n => simp [isStringKey] at hk
  simp [dictGet, hfind, truthy]

/-- Witness for C10 at a concrete record list. -/
theorem C10_witness :
    check_if_exists (PyVal.vint 1)
      [[(PyVal.vstr "objectID", PyVal.vint 1),
        (PyVal.vstr "primaryImage", PyVal.vstr "x")]] = false :=
  C10_check_if_exists_always_false (PyVal.vint 1)
    [[(PyVal.vstr "objectID", PyVal.vint 1),
      (PyVal.vstr "primaryImage", PyVal.vstr "x")]]
    (by decide)

end Metwp
